import Mathlib

/-!
Shallow embedding of src/review_scraper.py (class ReviewScraper).

Modelling conventions:
* A Python dict with string keys and string values is an ordered association
  list `List (String × String)` (CPython dicts preserve insertion order).
* A parsed page (BeautifulSoup document) is reduced to the result of
  `soup.find_all('div', class_='review-item')`: a list of review containers.
  Each container records, for each of the six sub-field lookups
  (`container.find(...)`), the found node's text, or `none` when the node is
  absent (Python `find` returns `None` and the subsequent `.text` raises
  `AttributeError`).
* The network is external: the response the world would give for one GET is
  passed in explicitly as a `FetchOutcome` (a parsed document on success, the
  exception text of the `requests.RequestException` on any transport failure
  or non-success status via `raise_for_status`).
* File writes are external: an export receives `Option String` — `some cause`
  models an I/O exception raised while opening/writing, `none` a clean write —
  and returns the written content alongside the boolean result, so that "what
  was written" is observable.
* `time.sleep(delay)` is modelled by counting the calls (the wall-clock
  duration has no observable effect on the data); `print` calls are not
  modelled (no observable effect on state or results).
* Python `str.strip()` is `String.trim`; `json.dump`/`json.load` are modelled
  at the JSON-document level (`Json` below), since they are library functions
  outside this repository.
-/

namespace ReviewScraper

/-- A Python dict with string keys and string values, in insertion order. -/
abbrev ReviewDict := List (String × String)

/-- One review container from `soup.find_all('div', class_='review-item')`:
for each sub-field lookup of `extract_reviews`, the text of the found node, or
`none` when `container.find(...)` returned `None`. -/
structure Container where
  title : Option String
  author : Option String
  rating : Option String
  date : Option String
  text : Option String
  helpful : Option String
deriving DecidableEq

/-- A parsed document, reduced to its list of review containers. -/
abbrev Doc := List Container

/-- The network's response for one `requests.get`: a parsed document on
success, or the exception text on any `requests.RequestException` (transport
failure, timeout, or non-success status via `raise_for_status`). -/
inductive FetchOutcome where
  | success (doc : Doc)
  | failure (cause : String)
deriving DecidableEq

/-- The instance state of a `ReviewScraper` object: the four fields set by
`__init__` and mutated by the methods. -/
structure ScraperState where
  base_url : String
  headers : List (String × String)
  reviews : List ReviewDict
  errors : List String
deriving DecidableEq

/-- The default header dict of `__init__`. -/
def defaultHeaders : List (String × String) :=
  [("User-Agent", "Mozilla/5.0 (Windows NT 10.0; Win64; x64) AppleWebKit/537.36")]

/-- `ReviewScraper.__init__`: `self.headers = headers or {...}` (a falsy
argument — `None` or an empty dict — selects the default), and the two
accumulators start empty. -/
def init (base_url : String) (headers : Option (List (String × String))) : ScraperState :=
  { base_url := base_url
    headers :=
      match headers with
      | some h => if h.isEmpty then defaultHeaders else h
      | none => defaultHeaders
    reviews := []
    errors := [] }

/-- `ReviewScraper.fetch_page`: on success return the parsed document and
leave the state alone; on `requests.RequestException` append one
`"Failed to fetch {url}: {cause}"` entry to `self.errors` and return `None`. -/
def fetch_page (st : ScraperState) (url : String) (outcome : FetchOutcome) :
    Option Doc × ScraperState :=
  match outcome with
  | .success doc => (some doc, st)
  | .failure cause =>
      (none, { st with errors := st.errors ++ ["Failed to fetch " ++ url ++ ": " ++ cause] })

/-- CPython's message for the `AttributeError` raised by `.text` on the `None`
that a failed `container.find(...)` returns; this is the `str(e)` that
`extract_reviews` records. -/
def attrErrorText : String := "'NoneType' object has no attribute 'text'"

/-- The dict literal inside `ReviewScraper.extract_reviews`: the six sub-field
lookups in source order; the first absent one raises `AttributeError` (caught
by the surrounding loop), otherwise the record holds the six trimmed texts in
insertion order `title, author, rating, date, text, helpful`. -/
def parseContainer (c : Container) : Except String ReviewDict :=
  match c.title with
  | none => .error attrErrorText
  | some t =>
    match c.author with
    | none => .error attrErrorText
    | some a =>
      match c.rating with
      | none => .error attrErrorText
      | some r =>
        match c.date with
        | none => .error attrErrorText
        | some d =>
          match c.text with
          | none => .error attrErrorText
          | some x =>
            match c.helpful with
            | none => .error attrErrorText
            | some hc =>
              .ok [("title", t.trim), ("author", a.trim), ("rating", r.trim),
                   ("date", d.trim), ("text", x.trim), ("helpful", hc.trim)]

/-- The `for container in review_containers` loop of `extract_reviews`: a
parsed record is appended to the page's result list; an `AttributeError`
appends one `"Failed to parse review: {cause}"` entry to `self.errors` and the
loop continues. -/
def extractLoop (st : ScraperState) (cs : List Container) :
    List ReviewDict × ScraperState :=
  match cs with
  | [] => ([], st)
  | c :: rest =>
    match parseContainer c with
    | .ok r =>
        let tail := extractLoop st rest
        (r :: tail.1, tail.2)
    | .error cause =>
        extractLoop
          { st with errors := st.errors ++ ["Failed to parse review: " ++ cause] } rest

/-- `ReviewScraper.extract_reviews`, on a document already reduced to its
review containers. -/
def extract_reviews (st : ScraperState) (soup : Doc) :
    List ReviewDict × ScraperState :=
  extractLoop st soup

/-- The `for i, url in enumerate(page_urls, 1)` loop of
`scrape_multiple_pages`: `i` is the 1-based position, `total` is
`len(page_urls)`. Returns `(all_reviews, state, number of time.sleep calls)`;
the sleep runs exactly when `i < total`, whether or not the fetch succeeded. -/
def scrapeLoop (st : ScraperState) (pages : List (String × FetchOutcome))
    (i total : Nat) : List ReviewDict × ScraperState × Nat :=
  match pages with
  | [] => ([], st, 0)
  | (url, outcome) :: rest =>
    let fetched := fetch_page st url outcome
    let page :=
      match fetched.1 with
      | some doc => extract_reviews fetched.2 doc
      | none => ([], fetched.2)
    let sleeps := if i < total then 1 else 0
    let tail := scrapeLoop page.2 rest (i + 1) total
    (page.1 ++ tail.1, tail.2.1, sleeps + tail.2.2)

/-- `ReviewScraper.scrape_multiple_pages`: runs the loop, then executes
`self.reviews = all_reviews` (an assignment that replaces the field) and
returns `all_reviews`. The third component is the number of `time.sleep`
calls made. -/
def scrape_multiple_pages (st : ScraperState)
    (pages : List (String × FetchOutcome)) :
    List ReviewDict × ScraperState × Nat :=
  let run := scrapeLoop st pages 1 pages.length
  (run.1, { run.2.1 with reviews := run.1 }, run.2.2)

/-- The keys of a dict, in insertion order (`dict.keys()`). -/
def dictKeys (r : ReviewDict) : List String := r.map Prod.fst

/-- Dict lookup (`rowdict.get(key, restval)` with `restval = None`). -/
def dictGet (r : ReviewDict) (k : String) : Option String :=
  (r.find? (fun kv => kv.1 == k)).map Prod.snd

/-- `csv.DictWriter._dict_to_list`: a key outside `fieldnames` raises
`ValueError`; otherwise the row holds the dict's values in `fieldnames` order
(a missing key yields the empty cell, `restval=None` written as ""). -/
def dictRow (fieldnames : List String) (r : ReviewDict) :
    Except String (List String) :=
  if r.all (fun kv => fieldnames.contains kv.1) then
    .ok (fieldnames.map (fun k => (dictGet r k).getD ""))
  else
    .error "dict contains fields not in fieldnames"

/-- `DictWriter.writerows` over the review list: rows in order, stopping at
the first raising dict. -/
def rowsLoop (fieldnames : List String) :
    List ReviewDict → Except String (List (List String))
  | [] => .ok []
  | r :: rest =>
    match dictRow fieldnames r with
    | .error e => .error e
    | .ok row =>
      match rowsLoop fieldnames rest with
      | .ok rows => .ok (row :: rows)
      | .error e => .error e

/-- `ReviewScraper.export_to_csv`: empty accumulator → `False`, nothing
written; otherwise fieldnames are the first record's keys, the file is the
header row followed by one row per record; any exception is recorded as
`"Failed to export CSV: {cause}"` and surfaces as `False`. -/
def export_to_csv (st : ScraperState) (ioError : Option String) :
    Bool × ScraperState × Option (List (List String)) :=
  match st.reviews with
  | [] => (false, st, none)
  | r0 :: _ =>
    match ioError with
    | some cause =>
        (false,
         { st with errors := st.errors ++ ["Failed to export CSV: " ++ cause] },
         none)
    | none =>
      let keys := dictKeys r0
      match rowsLoop keys st.reviews with
      | .ok rows => (true, st, some (keys :: rows))
      | .error cause =>
          (false,
           { st with errors := st.errors ++ ["Failed to export CSV: " ++ cause] },
           none)

/-- A JSON document, as far as this program produces and consumes one. -/
inductive Json where
  | str (s : String)
  | arr (elems : List Json)
  | obj (fields : List (String × Json))

/-- `json.dump` of one review dict: an object with the dict's fields in
insertion order. -/
def dictToJson (r : ReviewDict) : Json :=
  .obj (r.map (fun kv => (kv.1, .str kv.2)))

/-- `json.dump` of the review list: a JSON array of objects. -/
def reviewsToJson (rs : List ReviewDict) : Json :=
  .arr (rs.map dictToJson)

/-- `json.load` back into one review dict: every field value must be a
string. -/
def jsonToDict : Json → Option ReviewDict
  | .obj fields =>
    fields.mapM (fun kv =>
      match kv.2 with
      | .str s => some (kv.1, s)
      | _ => none)
  | _ => none

/-- `json.load` back into a review list: the document must be an array of
string-valued objects. -/
def jsonToReviews : Json → Option (List ReviewDict)
  | .arr elems => elems.mapM jsonToDict
  | _ => none

/-- `ReviewScraper.export_to_json`: empty accumulator → `False`, nothing
written; otherwise the serialized review list is written; any exception is
recorded as `"Failed to export JSON: {cause}"` and surfaces as `False`. -/
def export_to_json (st : ScraperState) (ioError : Option String) :
    Bool × ScraperState × Option Json :=
  match st.reviews with
  | [] => (false, st, none)
  | _ :: _ =>
    match ioError with
    | some cause =>
        (false,
         { st with errors := st.errors ++ ["Failed to export JSON: " ++ cause] },
         none)
    | none => (true, st, some (reviewsToJson st.reviews))

/-- A value of the statistics dict: a count or the timestamp string. -/
inductive StatValue where
  | nat (n : Nat)
  | str (s : String)
deriving DecidableEq

/-- `ReviewScraper.get_statistics`: empty mapping when no reviews are
accumulated, otherwise the three fields; `now` is the
`datetime.now().isoformat()` clock read. -/
def get_statistics (st : ScraperState) (now : String) :
    List (String × StatValue) :=
  match st.reviews with
  | [] => []
  | _ :: _ =>
      [("total_reviews", .nat st.reviews.length),
       ("scrape_date", .str now),
       ("total_errors", .nat st.errors.length)]

/-! Specification helpers: closed forms for the two loops, proved equal to
them below, plus predicates on containers and concrete sample inputs. -/

/-- The records one container list yields, independent of scraper state. -/
def extractPure : List Container → List ReviewDict
  | [] => []
  | c :: rest =>
    match parseContainer c with
    | .ok r => r :: extractPure rest
    | .error _ => extractPure rest

/-- The parse-error entries logged while extracting one container list. -/
def extractErrs : List Container → List String
  | [] => []
  | c :: rest =>
    match parseContainer c with
    | .ok _ => extractErrs rest
    | .error cause => ("Failed to parse review: " ++ cause) :: extractErrs rest

/-- The reviews one page contributes to a run. -/
def pageReviews : String × FetchOutcome → List ReviewDict
  | (_, .success doc) => extractPure doc
  | (_, .failure _) => []

/-- The error entries one page contributes to a run. -/
def pageErrs : String × FetchOutcome → List String
  | (_, .success doc) => extractErrs doc
  | (url, .failure cause) => ["Failed to fetch " ++ url ++ ": " ++ cause]

/-- All reviews a run over the given pages collects, in order. -/
def runReviews : List (String × FetchOutcome) → List ReviewDict
  | [] => []
  | p :: rest => pageReviews p ++ runReviews rest

/-- All error entries a run over the given pages logs, in order. -/
def runErrs : List (String × FetchOutcome) → List String
  | [] => []
  | p :: rest => pageErrs p ++ runErrs rest

/-- A container with all six sub-fields present. -/
def isComplete (c : Container) : Bool :=
  c.title.isSome && c.author.isSome && c.rating.isSome &&
    c.date.isSome && c.text.isSome && c.helpful.isSome

/-- How many of the six sub-fields are absent from a container. -/
def missingCount (c : Container) : Nat :=
  (if c.title.isSome then 0 else 1) + (if c.author.isSome then 0 else 1) +
    (if c.rating.isSome then 0 else 1) + (if c.date.isSome then 0 else 1) +
    (if c.text.isSome then 0 else 1) + (if c.helpful.isSome then 0 else 1)

/-- The record a complete container parses to: its six trimmed texts in the
fixed insertion order. -/
def forceDict (c : Container) : ReviewDict :=
  [("title", (c.title.getD "").trim), ("author", (c.author.getD "").trim),
   ("rating", (c.rating.getD "").trim), ("date", (c.date.getD "").trim),
   ("text", (c.text.getD "").trim), ("helpful", (c.helpful.getD "").trim)]

/-- A well-formed sample container, for concrete witnesses. -/
def goodContainer : Container :=
  { title := some "Great laptop", author := some "Alice", rating := some "5",
    date := some "2024-01-02", text := some "Works well.", helpful := some "3" }

/-- A sample container missing exactly one sub-field (the rating). -/
def badContainer : Container :=
  { goodContainer with rating := none }

/-- A freshly constructed scraper, for concrete witnesses. -/
def stInit : ScraperState := init "https://example.com" none

/-- A sample review record in the shape `extract_reviews` produces. -/
def sampleReview : ReviewDict :=
  [("title", "Great laptop"), ("author", "Alice"), ("rating", "5"),
   ("date", "2024-01-02"), ("text", "Works well."), ("helpful", "3")]

/-- A scraper holding one accumulated review, for concrete witnesses. -/
def stOneReview : ScraperState :=
  { base_url := "https://example.com", headers := defaultHeaders,
    reviews := [sampleReview], errors := [] }

/-- A scraper with no accumulated reviews but a non-empty error log, for
concrete witnesses. -/
def stNoReviews : ScraperState :=
  { base_url := "https://example.com", headers := defaultHeaders,
    reviews := [], errors := ["Failed to fetch u: boom"] }

/-! Helper lemmas. -/

/-- The extraction loop in closed form: the records depend only on the
containers, and the state only gains error entries. -/
theorem extractLoop_eq (cs : List Container) (st : ScraperState) :
    extractLoop st cs =
      (extractPure cs, { st with errors := st.errors ++ extractErrs cs }) := by
  induction cs generalizing st with
  | nil => simp [extractLoop, extractPure, extractErrs]
  | cons c rest ih =>
    cases hp : parseContainer c with
    | ok r => simp [extractLoop, extractPure, extractErrs, hp, ih]
    | error e => simp [extractLoop, extractPure, extractErrs, hp, ih]

/-- A complete container parses to its trimmed record. -/
theorem parseContainer_complete (c : Container) (h : isComplete c = true) :
    parseContainer c = .ok (forceDict c) := by
  obtain ⟨t, a, r, d, x, hc⟩ := c
  cases t <;> cases a <;> cases r <;> cases d <;> cases x <;> cases hc <;>
    simp_all [isComplete, parseContainer, forceDict]

/-- A container with an absent sub-field parses to the AttributeError text. -/
theorem parseContainer_missing (c : Container) (h : missingCount c = 1) :
    parseContainer c = .error attrErrorText := by
  obtain ⟨t, a, r, d, x, hc⟩ := c
  cases t <;> cases a <;> cases r <;> cases d <;> cases x <;> cases hc <;>
    simp_all [missingCount, parseContainer]

theorem extractPure_append (xs ys : List Container) :
    extractPure (xs ++ ys) = extractPure xs ++ extractPure ys := by
  induction xs with
  | nil => simp [extractPure]
  | cons c rest ih =>
    cases hp : parseContainer c <;> simp [extractPure, hp, ih]

theorem extractErrs_append (xs ys : List Container) :
    extractErrs (xs ++ ys) = extractErrs xs ++ extractErrs ys := by
  induction xs with
  | nil => simp [extractErrs]
  | cons c rest ih =>
    cases hp : parseContainer c <;> simp [extractErrs, hp, ih]

/-- On a list of complete containers, extraction yields one record per
container and logs nothing. -/
theorem extract_complete (cs : List Container)
    (h : ∀ c ∈ cs, isComplete c = true) :
    extractPure cs = cs.map forceDict ∧ extractErrs cs = [] := by
  induction cs with
  | nil => simp [extractPure, extractErrs]
  | cons c rest ih =>
    have hc := parseContainer_complete c (h c (by simp))
    have ihr := ih (fun x hx => h x (by simp [hx]))
    simp [extractPure, extractErrs, hc, ihr.1, ihr.2]

/-- The scrape loop in closed form: the collected reviews and the logged
errors depend only on the pages, and the state only gains error entries. -/
theorem scrapeLoop_run (pages : List (String × FetchOutcome))
    (st : ScraperState) (i total : Nat) :
    (scrapeLoop st pages i total).1 = runReviews pages ∧
    (scrapeLoop st pages i total).2.1 =
      { st with errors := st.errors ++ runErrs pages } := by
  induction pages generalizing st i with
  | nil => simp [scrapeLoop, runReviews, runErrs]
  | cons p rest ih =>
    obtain ⟨url, outcome⟩ := p
    cases outcome with
    | success doc =>
      simp [scrapeLoop, fetch_page, extract_reviews, extractLoop_eq,
            runReviews, runErrs, pageReviews, pageErrs, ih]
    | failure cause =>
      simp [scrapeLoop, fetch_page, runReviews, runErrs, pageReviews,
            pageErrs, ih]

/-- The scrape loop sleeps once per page whose 1-based position is below the
total page count. -/
theorem scrapeLoop_sleeps (pages : List (String × FetchOutcome))
    (st : ScraperState) (i total : Nat)
    (h : i + pages.length = total + 1) :
    (scrapeLoop st pages i total).2.2 = pages.length - 1 := by
  induction pages generalizing st i with
  | nil => simp [scrapeLoop]
  | cons p rest ih =>
    obtain ⟨url, outcome⟩ := p
    have hrec :
        ∀ st2 : ScraperState,
          (scrapeLoop st2 rest (i + 1) total).2.2 = rest.length - 1 :=
      fun st2 => ih st2 (i + 1) (by simp at h; omega)
    have hi : (if i < total then 1 else 0) + (rest.length - 1)
        = (rest.length + 1) - 1 := by
      simp at h
      rcases Nat.lt_or_ge i total with hlt | hge
      · simp [hlt]; omega
      · have : ¬ i < total := Nat.not_lt.mpr hge
        simp [this]; omega
    cases outcome with
    | success doc =>
      simpa [scrapeLoop, fetch_page, extract_reviews, extractLoop_eq, hrec]
        using hi
    | failure cause =>
      simpa [scrapeLoop, fetch_page, hrec] using hi

theorem runReviews_failures (L : List (String × String)) :
    runReviews (L.map (fun p => (p.1, FetchOutcome.failure p.2))) = [] := by
  induction L with
  | nil => simp [runReviews]
  | cons p rest ih => simp [runReviews, pageReviews, ih]

theorem runErrs_failures (L : List (String × String)) :
    runErrs (L.map (fun p => (p.1, FetchOutcome.failure p.2))) =
      L.map (fun p => "Failed to fetch " ++ p.1 ++ ": " ++ p.2) := by
  induction L with
  | nil => simp [runErrs]
  | cons p rest ih => simp [runErrs, pageErrs, ih]

/-! Claim theorems. -/

/-- C1: for every URL list whose fetches all fail, `scrape_multiple_pages`
completes (it is a total function of the embedding), returns the empty review
list, and the error log ends with one `Failed to fetch {url}: {cause}` entry
per URL, in list order; the rest of the state only has `reviews` replaced by
that empty result. -/
theorem scrape_all_failures (st : ScraperState)
    (failures : List (String × String)) :
    (scrape_multiple_pages st
      (failures.map (fun p => (p.1, FetchOutcome.failure p.2)))).1 = [] ∧
    (scrape_multiple_pages st
      (failures.map (fun p => (p.1, FetchOutcome.failure p.2)))).2.1 =
      { st with
          reviews := [],
          errors := st.errors ++
            failures.map (fun p => "Failed to fetch " ++ p.1 ++ ": " ++ p.2) } := by
  have hr := scrapeLoop_run
    (failures.map (fun p => (p.1, FetchOutcome.failure p.2))) st 1
    failures.length
  constructor
  · simp [scrape_multiple_pages, hr.1, runReviews_failures]
  · simp [scrape_multiple_pages, hr.1, hr.2, runReviews_failures,
          runErrs_failures]

/-- C2 counterexample: on one `ReviewScraper` instance, a first run that
accumulates one review followed by a second run whose only fetch fails leaves
`reviews` empty — `self.reviews = all_reviews` at the end of
`scrape_multiple_pages` replaces the accumulator, so the later run discards
the earlier run's reviews, contradicting the claim. -/
theorem scrape_second_run_discards_first :
    (scrape_multiple_pages stInit
      [("https://example.com/reviews?page=1",
        FetchOutcome.success [goodContainer])]).2.1.reviews ≠ [] ∧
    (scrape_multiple_pages
      (scrape_multiple_pages stInit
        [("https://example.com/reviews?page=1",
          FetchOutcome.success [goodContainer])]).2.1
      [("https://example.com/reviews?page=2",
        FetchOutcome.failure "boom")]).2.1.reviews = [] := by
  constructor
  · simp [scrape_multiple_pages, scrapeLoop, fetch_page, extract_reviews,
          extractLoop, parseContainer, goodContainer]
  · simp [scrape_multiple_pages, scrapeLoop, fetch_page]

/-- The error log only ever grows under `fetch_page`. -/
theorem fetch_page_errors_append (st : ScraperState) (url : String)
    (o : FetchOutcome) :
    ∃ t, (fetch_page st url o).2.errors = st.errors ++ t := by
  cases o with
  | success d => exact ⟨[], (List.append_nil _).symm⟩
  | failure cause =>
      exact ⟨["Failed to fetch " ++ url ++ ": " ++ cause], rfl⟩

/-- The error log only ever grows under `extract_reviews`. -/
theorem extract_reviews_errors_append (st : ScraperState) (doc : Doc) :
    ∃ t, (extract_reviews st doc).2.errors = st.errors ++ t :=
  ⟨extractErrs doc, by simp [extract_reviews, extractLoop_eq]⟩

/-- The error log only ever grows under `scrape_multiple_pages`. -/
theorem scrape_errors_append (st : ScraperState)
    (pages : List (String × FetchOutcome)) :
    ∃ t, (scrape_multiple_pages st pages).2.1.errors = st.errors ++ t :=
  ⟨runErrs pages,
    by simp [scrape_multiple_pages, (scrapeLoop_run pages st 1 pages.length).2]⟩

/-- The error log only ever grows under `export_to_csv`, on every path:
empty accumulator, I/O failure, a dict rejected by `DictWriter`, or a clean
write. -/
theorem export_to_csv_errors_append (st : ScraperState) (io : Option String) :
    ∃ t, (export_to_csv st io).2.1.errors = st.errors ++ t := by
  rcases hrev : st.reviews with _ | ⟨r0, rest⟩
  · exact ⟨[], by simp [export_to_csv, hrev]⟩
  · rcases io with _ | cause
    · cases hrows : rowsLoop (dictKeys r0) (r0 :: rest) with
      | ok rows => exact ⟨[], by simp [export_to_csv, hrev, hrows]⟩
      | error cause2 =>
          exact ⟨["Failed to export CSV: " ++ cause2],
            by simp [export_to_csv, hrev, hrows]⟩
    · exact ⟨["Failed to export CSV: " ++ cause],
        by simp [export_to_csv, hrev]⟩

/-- The error log only ever grows under `export_to_json`, on every path. -/
theorem export_to_json_errors_append (st : ScraperState) (io : Option String) :
    ∃ t, (export_to_json st io).2.1.errors = st.errors ++ t := by
  rcases hrev : st.reviews with _ | ⟨r0, rest⟩
  · exact ⟨[], by simp [export_to_json, hrev]⟩
  · rcases io with _ | cause
    · exact ⟨[], by simp [export_to_json, hrev]⟩
    · exact ⟨["Failed to export JSON: " ++ cause],
        by simp [export_to_json, hrev]⟩

/-- C2 amended: both accumulators start empty at construction and the error
log is append-only across every operation — `fetch_page`, `extract_reviews`,
`scrape_multiple_pages`, and both exports on all of their paths extend it
only on the right, and `get_statistics` only reads the state — but each
`scrape_multiple_pages` run replaces the `reviews` field with that run's own
result (so a later run discards reviews accumulated by an earlier run on the
same instance). -/
theorem accumulator_lifecycle (b : String)
    (hs : Option (List (String × String))) (st : ScraperState)
    (pages : List (String × FetchOutcome)) (url : String) (o : FetchOutcome)
    (doc : Doc) (io1 io2 : Option String) :
    (init b hs).reviews = [] ∧ (init b hs).errors = [] ∧
    (scrape_multiple_pages st pages).2.1.reviews =
      (scrape_multiple_pages st pages).1 ∧
    (∃ t, (scrape_multiple_pages st pages).2.1.errors = st.errors ++ t) ∧
    (∃ t, (fetch_page st url o).2.errors = st.errors ++ t) ∧
    (∃ t, (extract_reviews st doc).2.errors = st.errors ++ t) ∧
    (∃ t, (export_to_csv st io1).2.1.errors = st.errors ++ t) ∧
    (∃ t, (export_to_json st io2).2.1.errors = st.errors ++ t) := by
  refine ⟨rfl, rfl, ?_, scrape_errors_append st pages,
    fetch_page_errors_append st url o, extract_reviews_errors_append st doc,
    export_to_csv_errors_append st io1, export_to_json_errors_append st io2⟩
  simp [scrape_multiple_pages]

/-- C3: a container missing exactly one of the six sub-fields contributes no
record and exactly one `Failed to parse review: {cause}` error entry, while
every complete container around it still contributes its record;
`extract_reviews` is total, so no exception escapes its boundary. -/
theorem extract_missing_one_isolated (st : ScraperState)
    (pre post : List Container) (c : Container)
    (hpre : ∀ x ∈ pre, isComplete x = true)
    (hpost : ∀ x ∈ post, isComplete x = true)
    (hc : missingCount c = 1) :
    extract_reviews st (pre ++ c :: post) =
      (pre.map forceDict ++ post.map forceDict,
       { st with errors :=
           st.errors ++ ["Failed to parse review: " ++ attrErrorText] }) := by
  rw [extract_reviews, extractLoop_eq]
  have h1 := extract_complete pre hpre
  have h2 := extract_complete post hpost
  have hP : extractPure (pre ++ c :: post) =
      pre.map forceDict ++ post.map forceDict := by
    rw [extractPure_append]
    simp [extractPure, parseContainer_missing c hc, h1.1, h2.1]
  have hE : extractErrs (pre ++ c :: post) =
      ["Failed to parse review: " ++ attrErrorText] := by
    rw [extractErrs_append]
    simp [extractErrs, parseContainer_missing c hc, h1.2, h2.2]
  rw [hP, hE]

/-- C3 witness: a concrete document with a complete container on each side of
one container whose rating is absent. -/
theorem extract_missing_one_isolated_witness :
    extract_reviews stInit ([goodContainer] ++ badContainer :: [goodContainer]) =
      ([goodContainer].map forceDict ++ [goodContainer].map forceDict,
       { stInit with errors :=
           stInit.errors ++ ["Failed to parse review: " ++ attrErrorText] }) :=
  extract_missing_one_isolated stInit [goodContainer] [goodContainer]
    badContainer (by decide) (by decide) (by decide)

/-- C4: on a failing fetch (transport failure or non-success status, both
surfacing as a `requests.RequestException`), `fetch_page` returns no document
and appends exactly one `Failed to fetch {url}: {cause}` entry to the error
log, leaving every other field — in particular the accumulated reviews —
unchanged; no exception propagates (the embedding is total). -/
theorem fetch_page_failure_logs (st : ScraperState) (url cause : String) :
    fetch_page st url (.failure cause) =
      (none,
       { st with errors :=
           st.errors ++ ["Failed to fetch " ++ url ++ ": " ++ cause] }) := rfl

/-- C5: a run over N URLs executes the inter-request sleep exactly N − 1
times (natural subtraction: 0 for an empty list), whatever each fetch's
outcome. -/
theorem scrape_delay_count (st : ScraperState)
    (pages : List (String × FetchOutcome)) :
    (scrape_multiple_pages st pages).2.2 = pages.length - 1 := by
  have h := scrapeLoop_sleeps pages st 1 pages.length (by omega)
  simpa [scrape_multiple_pages] using h

/-- A dict whose key list equals the fieldnames row maps to its values in
fieldnames order. -/
theorem dictRow_of_keys (keys : List String) (r : ReviewDict)
    (hk : dictKeys r = keys) :
    dictRow keys r = .ok (keys.map (fun k => (dictGet r k).getD "")) := by
  rw [dictRow, if_pos]
  rw [List.all_eq_true]
  intro kv hkv
  have h1 : kv.1 ∈ dictKeys r := List.mem_map_of_mem _ hkv
  rw [hk] at h1
  exact List.elem_iff.mpr h1

/-- Writing rows succeeds on a list of dicts sharing one key list. -/
theorem rowsLoop_ok (keys : List String) (rs : List ReviewDict)
    (h : ∀ r ∈ rs, dictKeys r = keys) :
    rowsLoop keys rs =
      .ok (rs.map (fun r => keys.map (fun k => (dictGet r k).getD ""))) := by
  induction rs with
  | nil => simp [rowsLoop]
  | cons r rest ih =>
    have hr := dictRow_of_keys keys r (h r (by simp))
    have ihr := ih (fun x hx => h x (by simp [hx]))
    simp [rowsLoop, hr, ihr]

/-- C6: on a non-empty accumulator (whose records share the first record's
key list, as every record `extract_reviews` produces does), `export_to_csv`
succeeds, leaves the state untouched, and writes the first record's keys in
insertion order as the header followed by exactly one row per record in
accumulation order — nothing filtered, dropped, or re-validated. -/
theorem export_to_csv_nonempty (st : ScraperState) (r0 : ReviewDict)
    (rest : List ReviewDict) (h : st.reviews = r0 :: rest)
    (hk : ∀ r ∈ st.reviews, dictKeys r = dictKeys r0) :
    export_to_csv st none =
      (true, st,
       some (dictKeys r0 ::
         st.reviews.map
           (fun r => (dictKeys r0).map (fun k => (dictGet r k).getD "")))) := by
  have hrows : rowsLoop (dictKeys r0) (r0 :: rest) =
      .ok ((r0 :: rest).map
        (fun r => (dictKeys r0).map (fun k => (dictGet r k).getD ""))) := by
    rw [← h]
    exact rowsLoop_ok _ _ hk
  simp [export_to_csv, h, hrows]

/-- C6 witness: a scraper holding one concrete six-field record. -/
theorem export_to_csv_nonempty_witness :
    export_to_csv stOneReview none =
      (true, stOneReview,
       some (dictKeys sampleReview ::
         stOneReview.reviews.map
           (fun r => (dictKeys sampleReview).map
             (fun k => (dictGet r k).getD "")))) :=
  export_to_csv_nonempty stOneReview sampleReview [] rfl (by decide)

/-- Loading back one serialized dict restores it field for field. -/
theorem jsonToDict_dictToJson (r : ReviewDict) :
    jsonToDict (dictToJson r) = some r := by
  induction r with
  | nil => rfl
  | cons kv rest ih =>
    simp only [dictToJson, jsonToDict, List.map_cons, List.mapM_cons] at ih ⊢
    simp_all

/-- Loading back the serialized review list restores it element for
element. -/
theorem jsonToReviews_reviewsToJson (rs : List ReviewDict) :
    jsonToReviews (reviewsToJson rs) = some rs := by
  induction rs with
  | nil => rfl
  | cons r rest ih =>
    simp only [reviewsToJson, jsonToReviews, List.map_cons, List.mapM_cons]
      at ih ⊢
    simp_all [jsonToDict_dictToJson]

/-- C7: on a non-empty accumulator, `export_to_json` writes the serialized
review list and parsing that document back yields a list equal record for
record, field for field, in the same order, to the accumulated sequence. -/
theorem export_to_json_roundtrip (st : ScraperState) (h : st.reviews ≠ []) :
    export_to_json st none = (true, st, some (reviewsToJson st.reviews)) ∧
    jsonToReviews (reviewsToJson st.reviews) = some st.reviews := by
  constructor
  · cases hrev : st.reviews with
    | nil => exact absurd hrev h
    | cons r rest => simp [export_to_json, hrev]
  · exact jsonToReviews_reviewsToJson _

/-- C7 witness: the round trip on a scraper holding one concrete record. -/
theorem export_to_json_roundtrip_witness :
    export_to_json stOneReview none =
      (true, stOneReview, some (reviewsToJson stOneReview.reviews)) ∧
    jsonToReviews (reviewsToJson stOneReview.reviews) =
      some stOneReview.reviews :=
  export_to_json_roundtrip stOneReview (by decide)

/-- C8: with an empty accumulator both exports return false and write
nothing (whatever the I/O environment would have done), and the statistics
mapping is empty — the error log's contents do not matter. -/
theorem empty_accumulator_noop (st : ScraperState) (io1 io2 : Option String)
    (now : String) (h : st.reviews = []) :
    export_to_csv st io1 = (false, st, none) ∧
    export_to_json st io2 = (false, st, none) ∧
    get_statistics st now = [] := by
  refine ⟨?_, ?_, ?_⟩ <;>
    simp [export_to_csv, export_to_json, get_statistics, h]

/-- C8 witness: a scraper with no reviews but a non-empty error log; the CSV
export is even offered a failing I/O environment and still just returns
false. -/
theorem empty_accumulator_noop_witness :
    export_to_csv stNoReviews (some "disk full") = (false, stNoReviews, none) ∧
    export_to_json stNoReviews none = (false, stNoReviews, none) ∧
    get_statistics stNoReviews "2026-10-12T00:00:00" = [] :=
  empty_accumulator_noop stNoReviews (some "disk full") none
    "2026-10-12T00:00:00" rfl

/-- C9: a document with zero review containers extracts to the empty list
and leaves the state — in particular the error log — exactly as it was. -/
theorem extract_reviews_no_containers (st : ScraperState) :
    extract_reviews st [] = ([], st) := rfl

/-- C10: `fetch_page` and `extract_reviews` never change `base_url`,
`headers` or the accumulated `reviews`; the only field either operation
touches is the error log, and only by appending a (possibly empty) batch of
entries. -/
theorem fetch_extract_frame (st : ScraperState) (url : String)
    (o : FetchOutcome) (doc : Doc) :
    ((fetch_page st url o).2.base_url = st.base_url ∧
     (fetch_page st url o).2.headers = st.headers ∧
     (fetch_page st url o).2.reviews = st.reviews ∧
     ∃ t, (fetch_page st url o).2.errors = st.errors ++ t) ∧
    ((extract_reviews st doc).2.base_url = st.base_url ∧
     (extract_reviews st doc).2.headers = st.headers ∧
     (extract_reviews st doc).2.reviews = st.reviews ∧
     ∃ t, (extract_reviews st doc).2.errors = st.errors ++ t) := by
  constructor
  · cases o with
    | success d => exact ⟨rfl, rfl, rfl, [], (List.append_nil _).symm⟩
    | failure cause =>
        exact ⟨rfl, rfl, rfl, ["Failed to fetch " ++ url ++ ": " ++ cause], rfl⟩
  · refine ⟨?_, ?_, ?_, ⟨extractErrs doc, ?_⟩⟩ <;>
      simp [extract_reviews, extractLoop_eq]

end ReviewScraper
